import Mathlib

/-!
# Verification of `main_bbox.py` (BoosterSHOT-MVDet training/evaluation driver)

This file shallowly embeds the orchestration logic of `src/main_bbox.py`.
The script is glue code: it parses command-line flags, seeds random number
generators, builds datasets/loaders, builds a model/optimizer/scheduler,
runs an epoch loop (train, validate, curve logging), saves or loads a
checkpoint, runs a final test pass that writes a results file, and invokes
an external MATLAB evaluator on that file.

The embedding represents a run as a pure function from the parsed arguments
(plus the ambient inputs the script reads: the wall-clock timestamp, the
listing of the current directory, and the numeric metrics returned by the
framework-owned trainer) to a linear trace of effect events, mirroring the
source line by line.  Numeric flag values are rationals; fallible control
flow (the dataset-dispatch `raise Exception`) is an error outcome.
-/

namespace MainBbox

/-- The parsed command-line arguments of `main_bbox.py` (lines 24-43), with
one field per `add_argument` call.  `resume` and `seed` default to `None`,
hence `Option`. -/
structure Args where
  reID : Bool
  cls_thres : ℚ
  soften : ℚ
  arch : String
  dataset : String
  test_type : String
  num_workers : ℕ
  batch_size : ℕ
  epochs : ℕ
  lr : ℚ
  weight_decay : ℚ
  momentum : ℚ
  log_interval : ℕ
  resume : Option String
  visualize : Bool
  seed : Option Int
deriving DecidableEq

/-- The argparse defaults (lines 25-42): cls_thres 0.4, soften 1, vgg11,
wildtrack_bbox, test, 4 workers, batch 64, 60 epochs, lr 0.1, weight decay
5e-4, momentum 0.5, log interval 10, no resume, no seed. -/
def defaultArgs : Args :=
  { reID := false
    cls_thres := 2/5
    soften := 1
    arch := "vgg11"
    dataset := "wildtrack_bbox"
    test_type := "test"
    num_workers := 4
    batch_size := 64
    epochs := 60
    lr := 1/10
    weight_decay := 1/2000
    momentum := 1/2
    log_interval := 10
    resume := none
    visualize := false
    seed := none }

/-- The `choices` list of the `--dataset` flag (line 29). -/
def datasetChoices : List String := ["wildtrack_bbox"]

/-- The `choices` list of the `--test_type` flag (line 30). -/
def testTypeChoices : List String := ["val", "test"]

/-- Whether argparse accepts the given argument values: each flag with a
`choices` list must take a value from that list (lines 29-30). -/
def argparseAccepts (a : Args) : Bool :=
  datasetChoices.contains a.dataset && testTypeChoices.contains a.test_type

/-- A preprocessing step of a `torchvision.transforms.Compose` pipeline, as
used on lines 57-59: `Resize([h, w])`, `ToTensor()`, and
`Normalize(means, stds)` with three per-channel means and standard
deviations. -/
inductive TStep where
  | resize (h w : ℕ)
  | toTensor
  | normalize (m0 m1 m2 s0 s1 s2 : ℚ)
deriving DecidableEq

/-- The `T.Normalize((0.485, 0.456, 0.406), (0.229, 0.224, 0.225))` step of
line 57. -/
def normalizeStep : TStep :=
  TStep.normalize (485/1000) (456/1000) (406/1000) (229/1000) (224/1000) (225/1000)

/-- `train_trans` (line 58): resize to 256x128, tensor conversion,
normalization. -/
def train_trans : List TStep := [TStep.resize 256 128, TStep.toTensor, normalizeStep]

/-- `test_trans` (line 59): resize to 256x128, tensor conversion,
normalization. -/
def test_trans : List TStep := [TStep.resize 256 128, TStep.toTensor, normalizeStep]

/-- An image, abstracted as its dimensions and a per-pixel, per-channel
rational intensity. -/
structure Img where
  h : ℕ
  w : ℕ
  pix : ℕ → ℕ → Fin 3 → ℚ

/-- Semantics of one preprocessing step on an image.  `resize` rescales the
pixel grid (the interpolation kernel is framework-owned; a nearest-neighbour
style index map stands in for it), `toTensor` maps byte intensities to
[0, 1], and `normalize` shifts and scales each channel by the fixed
constants. -/
def applyStep : TStep → Img → Img
  | TStep.resize h w, i =>
    { h := h, w := w, pix := fun r c ch => i.pix (r * i.h / h) (c * i.w / w) ch }
  | TStep.toTensor, i =>
    { i with pix := fun r c ch => i.pix r c ch / 255 }
  | TStep.normalize m0 m1 m2 s0 s1 s2, i =>
    { i with pix := fun r c ch =>
        (i.pix r c ch - [m0, m1, m2].getD ch 0) / ([s0, s1, s2].getD ch 1) }

/-- Semantics of a `Compose` pipeline: apply the steps left to right. -/
def applyPipeline (ts : List TStep) (i : Img) : Img :=
  ts.foldl (fun acc s => applyStep s acc) i

/-- Boolean substring test, modelling Python's `'wildtrack' in args.dataset`
(line 55). -/
def substrB (needle hay : String) : Bool :=
  go needle.toList hay.toList
where
  go (n : List Char) : List Char → Bool
    | [] => n.isEmpty
    | c :: t => n.isPrefixOf (c :: t) || go n t

/-- Python truthiness of the `--resume` value: `None` and the empty string
are falsy (the conditional expression on lines 75-76 tests
`not args.resume`, while lines 77 and 109 test `args.resume is None`). -/
def resumeFalsy : Option String → Bool
  | none => true
  | some s => s.isEmpty

/-- One observable effect of a run of `main_bbox.py`, in program order.
Events carry exactly the data the script passes across the corresponding
call boundary. -/
inductive Event where
  /-- line 3: `os.environ['OMP_NUM_THREADS'] = '1'`. -/
  | setEnv (name val : String)
  /-- lines 4-19: the remaining module imports. -/
  | importLibs
  /-- line 43: `args = parser.parse_args()`. -/
  | parseArgs
  /-- line 47: `np.random.seed(args.seed)`. -/
  | npSeed (s : Int)
  /-- line 48: `torch.manual_seed(args.seed)`. -/
  | torchManualSeed (s : Int)
  /-- lines 49: `torch.backends.cudnn.deterministic = b`. -/
  | cudnnDeterministic (b : Bool)
  /-- lines 50, 52: `torch.backends.cudnn.benchmark = b`. -/
  | cudnnBenchmark (b : Bool)
  /-- lines 56-62: construction of the train/val/test `WildtrackBBOX`
  datasets, carrying the data path and the transform pipeline given to
  each split. -/
  | buildDatasets (dataPath : String) (trainT valT testT : List TStep)
  /-- line 78: `os.makedirs(logdir, exist_ok=True)`. -/
  | makedirs (path : String)
  /-- line 79: `copy_tree('./multiview_detector', ...)`. -/
  | copyTree (src dst : String)
  /-- lines 80-83: `shutil.copyfile(script, dst_file)`. -/
  | copyFile (src dst : String)
  /-- line 84: `sys.stdout = Logger(os.path.join(logdir, 'log.txt'))`. -/
  | redirectStdout (path : String)
  /-- lines 85, 114, 116, 133: `print(...)` of a fixed string. -/
  | printLine (s : String)
  /-- line 86: `print(vars(args))`. -/
  | printVars (a : Args)
  /-- line 89: `BBOXClassifier(train_set.num_cam, args.arch).cuda()`. -/
  | buildModel (arch : String)
  /-- line 91: `optim.SGD(..., lr, momentum, weight_decay)`. -/
  | buildOptimizer (lr momentum weight_decay : ℚ)
  /-- line 92: `CosineAnnealingWarmRestarts(optimizer, T_0, T_mult)`. -/
  | buildScheduler (t0 tmult : ℕ)
  /-- line 106: `BBOXTrainer(model, criterion, args.cls_thres)` — the only
  per-run scalar handed to the trainer is the classification threshold. -/
  | buildTrainer (clsThres : ℚ)
  /-- line 115: `trainer.train(epoch, train_loader, optimizer,
  args.log_interval, scheduler)`; `withScheduler` records that the
  scheduler object is among the arguments. -/
  | trainEpoch (epoch : ℕ) (logInterval : ℕ) (withScheduler : Bool)
  /-- lines 117, 134: `trainer.test(loader)` / `trainer.test(loader,
  res_fpath=...)`, carrying the loader name and the optional results
  path. -/
  | testPass (loader : String) (resFpath : Option String)
  /-- lines 119-123: the five `list.append` calls of one epoch. -/
  | appendCurve (epoch : ℕ)
  /-- lines 124-125: `draw_curve(path, x_epoch, ...)`; `len` is the common
  length of the five sequences at the moment of the call. -/
  | drawCurve (path : String) (len : ℕ)
  /-- line 127: `torch.save(model.state_dict(), path)`. -/
  | saveCheckpoint (path : String)
  /-- line 131: `model.load_state_dict(torch.load(path))`. -/
  | loadCheckpoint (path : String)
  /-- line 132: `model.eval()`. -/
  | modelEval
  /-- line 135: `matlab_eval(res_fpath, gt_fpath)`; the ground-truth path is
  dataset-owned and elided. -/
  | matlabEval (resFpath : String)
deriving DecidableEq

/-- The five parallel curve-logging lists of lines 100-104. -/
structure CurveState where
  x_epoch : List ℕ
  train_loss_s : List ℚ
  train_prec_s : List ℚ
  og_test_loss_s : List ℚ
  og_test_prec_s : List ℚ
deriving DecidableEq

/-- The empty curve state created on lines 100-104. -/
def CurveState.init : CurveState := ⟨[], [], [], [], []⟩

/-- Per-epoch numeric results as returned by the framework-owned trainer:
(train loss, train precision, test loss, test precision). -/
abbrev Metrics := ℚ × ℚ × ℚ × ℚ

/-- The five appends of lines 119-123: one element onto each list. -/
def CurveState.push (st : CurveState) (epoch : ℕ) (m : Metrics) : CurveState :=
  { x_epoch := st.x_epoch ++ [epoch]
    train_loss_s := st.train_loss_s ++ [m.1]
    train_prec_s := st.train_prec_s ++ [m.2.1]
    og_test_loss_s := st.og_test_loss_s ++ [m.2.2.1]
    og_test_prec_s := st.og_test_prec_s ++ [m.2.2.2] }

/-- Whether a run completed or died on an uncaught exception. -/
inductive Outcome where
  | ok
  | error (msg : String)
deriving DecidableEq

/-- The run outcome and event trace of one invocation of `main`. -/
structure RunResult where
  events : List Event
  outcome : Outcome
deriving DecidableEq

/-- `logdir` (lines 75-76): the timestamped directory when `args.resume` is
falsy, else `logs/<dataset>/<resume>`. -/
def logdirOf (a : Args) (timestamp : String) : String :=
  if resumeFalsy a.resume then "logs/" ++ a.dataset ++ "/" ++ timestamp
  else "logs/" ++ a.dataset ++ "/" ++ a.resume.getD ""

/-- The filter of lines 80-81: keep the files of the current directory whose
last dot-separated component is `py`. -/
def pyFiles (rootFiles : List String) : List String :=
  rootFiles.filter (fun s => (s.splitOn ".").getLast! == "py")

/-- The seed block (lines 46-52). -/
def seedEvents (a : Args) : List Event :=
  match a.seed with
  | some s =>
    [Event.npSeed s, Event.torchManualSeed s,
     Event.cudnnDeterministic true, Event.cudnnBenchmark false]
  | none => [Event.cudnnBenchmark true]

/-- The run-directory setup block (lines 77-84), executed only when
`args.resume is None`. -/
def setupEvents (a : Args) (logdir : String) (rootFiles : List String) :
    List Event :=
  if a.resume = none then
    [Event.makedirs logdir,
     Event.copyTree "./multiview_detector" (logdir ++ "/scripts/multiview_detector")]
    ++ (pyFiles rootFiles).map
        (fun s => Event.copyFile s (logdir ++ "/scripts/" ++ s))
    ++ [Event.redirectStdout (logdir ++ "/log.txt")]
  else []

/-- One iteration of the epoch loop (lines 113-125): train, validate, push
one point onto each curve list, re-render the curve image.  Returns the
updated curve state and the events of the iteration. -/
def epochStep (a : Args) (logdir : String) (M : ℕ → Metrics)
    (st : CurveState) (epoch : ℕ) : CurveState × List Event :=
  let st2 := st.push epoch (M epoch)
  (st2,
   [Event.printLine "Training...",
    Event.trainEpoch epoch a.log_interval true,
    Event.printLine "Testing...",
    Event.testPass "val" none,
    Event.appendCurve epoch,
    Event.drawCurve (logdir ++ "/learning_curve.jpg") st2.x_epoch.length])

/-- The epoch loop (line 113) over a list of epoch indices, threading the
curve state. -/
def runEpochs (a : Args) (logdir : String) (M : ℕ → Metrics) :
    List ℕ → CurveState → CurveState × List Event
  | [], st => (st, [])
  | e :: rest, st =>
    let p := epochStep a logdir M st e
    let q := runEpochs a logdir M rest p.1
    (q.1, p.2 ++ q.2)

/-- The body of `main` (lines 22-136) as a pure trace-producing function.
Inputs beyond the parsed `Args`: the wall-clock `timestamp` formatted on
line 75, the `rootFiles` listing of the current directory read on line 80,
and the trainer metrics oracle `M` (the numeric results of
`trainer.train`/`trainer.test` are framework-owned).  The dataset dispatch
(lines 55-64) raises on a dataset name not containing `wildtrack`. -/
def run (a : Args) (timestamp : String) (rootFiles : List String)
    (M : ℕ → Metrics) : RunResult :=
  let evs0 := [Event.setEnv "OMP_NUM_THREADS" "1", Event.importLibs,
               Event.parseArgs] ++ seedEvents a
  if substrB "wildtrack" a.dataset then
    let logdir := logdirOf a timestamp
    let evs1 := evs0
      ++ [Event.buildDatasets "~/Data/wildtrack_bbox" train_trans test_trans test_trans]
      ++ setupEvents a logdir rootFiles
      ++ [Event.printLine "Settings:", Event.printVars a,
          Event.buildModel a.arch,
          Event.buildOptimizer a.lr a.momentum a.weight_decay,
          Event.buildScheduler 20 1,
          Event.buildTrainer a.cls_thres]
    let evs2 := evs1 ++
      (if a.resume = none then
        (runEpochs a logdir M (List.range' 1 a.epochs) CurveState.init).2
          ++ [Event.saveCheckpoint (logdir ++ "/MultiviewDetector.pth")]
      else
        [Event.loadCheckpoint
           ("logs/" ++ a.dataset ++ "/" ++ a.resume.getD "" ++ "/MultiviewDetector.pth"),
         Event.modelEval])
    let resPath := logdir ++ "/" ++ a.test_type ++ ".txt"
    ⟨evs2 ++ [Event.printLine "Test loaded model...",
              Event.testPass "test" (some resPath),
              Event.matlabEval resPath],
     Outcome.ok⟩
  else
    ⟨evs0, Outcome.error "Exception"⟩

/-- The files a single event writes (line 78 creates a directory and is not
a file write; `loadCheckpoint` only reads). -/
def Event.writes : Event → List String
  | Event.copyTree _ d => [d]
  | Event.copyFile _ d => [d]
  | Event.redirectStdout p => [p]
  | Event.drawCurve p _ => [p]
  | Event.saveCheckpoint p => [p]
  | Event.testPass _ (some p) => [p]
  | _ => []

/-- All files written over a trace, in order. -/
def writesOf (l : List Event) : List String := l.flatMap Event.writes

/-- The final contents of the filesystem region touched by a run: whatever
was there initially plus every file the trace writes. -/
def finalContents (initial : List String) (l : List Event) : List String :=
  initial ++ writesOf l

/-- The learning-rate scheduler state: the constructor arguments
`T_0`/`T_mult` of line 92 and the number of `scheduler.step()` calls made so
far. -/
structure Scheduler where
  T0 : ℕ
  Tmult : ℕ
  stepsTaken : ℕ
deriving DecidableEq

/-- One `scheduler.step()` call. -/
def Scheduler.step (s : Scheduler) : Scheduler :=
  { s with stepsTaken := s.stepsTaken + 1 }

/-- The scheduler as constructed on line 92:
`CosineAnnealingWarmRestarts(optimizer, 20, 1)`, not yet stepped. -/
def schedulerInit : Scheduler := ⟨20, 1, 0⟩

/-- Modelled from the spec: the scheduler-stepping behaviour of
`BBOXTrainer.train` (`multiview_detector/trainer.py`, which is not under
`src/`).  Per spec sections 4.5-4.6, one epoch of training steps the
scheduler once per batch, so an epoch over `numBatches` batches applies
`numBatches` scheduler steps (not a single per-epoch step). -/
def trainerTrainSched : ℕ → Scheduler → Scheduler
  | 0, s => s
  | n + 1, s => trainerTrainSched n s.step

/-- The per-run configuration `main` hands to the trainer on line 106:
`BBOXTrainer(model, criterion, args.cls_thres)` passes only the
classification threshold (the model and criterion carry no command-line
scalars). -/
structure BBOXTrainerCfg where
  cls_thres : ℚ
deriving DecidableEq

/-- Modelled from the spec: the results-file emission of `BBOXTrainer.test`
(`multiview_detector/trainer.py`, not under `src/`).  Per spec section 4.6
and the glossary, when `res_fpath` is given the trainer writes the samples
whose (softmax, temperature-softened) score reaches the classification
threshold; the scores are computed by the trainer from the model outputs,
and the only run-configurable scalar available to it is the `cls_thres` it
was constructed with (line 106). -/
def testEmitted (cfg : BBOXTrainerCfg) (scores : List ℚ) : List ℚ :=
  scores.filter (fun s => cfg.cls_thres ≤ s)

/-- The predictions a run emits to the results file, as a function of the
parsed arguments and the per-sample scores: the trainer is built from
`args.cls_thres` alone (line 106) and no other argument reaches the final
`trainer.test` call (line 134). -/
def emittedPredictions (a : Args) (scores : List ℚ) : List ℚ :=
  testEmitted ⟨a.cls_thres⟩ scores

/-- The curve state at the end of the epoch loop of a fresh run. -/
def curveOf (a : Args) (t : String) (M : ℕ → Metrics) : CurveState :=
  (runEpochs a (logdirOf a t) M (List.range' 1 a.epochs) CurveState.init).1

/-- The five curve sequences as a list (epoch indices cast to ℚ), for
counting them. -/
def CurveState.seqs (st : CurveState) : List (List ℚ) :=
  [st.x_epoch.map (fun n => (n : ℚ)), st.train_loss_s, st.train_prec_s,
   st.og_test_loss_s, st.og_test_prec_s]

/-- A concrete, everywhere-zero metrics oracle, for evaluating runs on
closed inputs. -/
def constMetrics : ℕ → Metrics := fun _ => (0, 0, 0, 0)

/-! ## Trace extractors -/

/-- The classification threshold of a `BBOXTrainer` construction event. -/
def evTrainerThres : Event → Option ℚ
  | Event.buildTrainer c => some c
  | _ => none

/-- The `(T_0, T_mult)` arguments of a scheduler construction event. -/
def evSchedulerCtor : Event → Option (ℕ × ℕ)
  | Event.buildScheduler t0 tm => some (t0, tm)
  | _ => none

/-- The epoch number of a `trainer.train` call event. -/
def evTrainNum : Event → Option ℕ
  | Event.trainEpoch n _ _ => some n
  | _ => none

/-- The seed of an `np.random.seed` call event. -/
def evNpSeed : Event → Option Int
  | Event.npSeed s => some s
  | _ => none

/-- The seed of a `torch.manual_seed` call event. -/
def evTorchSeed : Event → Option Int
  | Event.torchManualSeed s => some s
  | _ => none

/-- The value of a `cudnn.deterministic` assignment event. -/
def evCudnnDet : Event → Option Bool
  | Event.cudnnDeterministic b => some b
  | _ => none

/-- The value of a `cudnn.benchmark` assignment event. -/
def evCudnnBench : Event → Option Bool
  | Event.cudnnBenchmark b => some b
  | _ => none

/-- The name/value pair of an environment-variable assignment event. -/
def evEnvAssign : Event → Option (String × String)
  | Event.setEnv n v => some (n, v)
  | _ => none

/-- The epoch number of a curve-append event. -/
def evAppendNum : Event → Option ℕ
  | Event.appendCurve n => some n
  | _ => none

/-- The classification thresholds passed to `BBOXTrainer` constructions, in
order. -/
def trainerThresList (l : List Event) : List ℚ := l.filterMap evTrainerThres

/-- The `(T_0, T_mult)` arguments of the scheduler constructions, in
order. -/
def schedulerCtors (l : List Event) : List (ℕ × ℕ) :=
  l.filterMap evSchedulerCtor

/-- The epoch numbers of the `trainer.train` calls, in order. -/
def trainNums (l : List Event) : List ℕ := l.filterMap evTrainNum

/-- The seeds passed to `np.random.seed`, in order. -/
def npSeeds (l : List Event) : List Int := l.filterMap evNpSeed

/-- The seeds passed to `torch.manual_seed`, in order. -/
def torchSeeds (l : List Event) : List Int := l.filterMap evTorchSeed

/-- The values assigned to `torch.backends.cudnn.deterministic`, in
order. -/
def cudnnDets (l : List Event) : List Bool := l.filterMap evCudnnDet

/-- The values assigned to `torch.backends.cudnn.benchmark`, in order. -/
def cudnnBenches (l : List Event) : List Bool := l.filterMap evCudnnBench

/-- The environment-variable assignments of a trace, in order. -/
def envAssigns (l : List Event) : List (String × String) :=
  l.filterMap evEnvAssign

/-- The epochs whose completion appended a point onto the curve lists, in
order. -/
def appendNums (l : List Event) : List ℕ := l.filterMap evAppendNum

/-- The value an environment variable holds at the end of a trace (its last
assignment, if any). -/
def envValue (name : String) (l : List Event) : Option String :=
  ((envAssigns l).filter (fun p => p.1 == name)).getLast?.map Prod.snd

/-- Scanner for the curve-logging discipline: every append onto the curve
lists is immediately followed by a `draw_curve` call whose sequences have
length consistent with the appended epoch. -/
def appendThenDraw : List Event → Bool
  | [] => true
  | Event.appendCurve e :: rest =>
    match rest with
    | Event.drawCurve _ n :: rest2 => e == n && appendThenDraw rest2
    | _ => false
  | _ :: rest => appendThenDraw rest

/-! ## Trace-shape lemmas -/

/-- The curve state after an epoch-loop run: each of the five lists grows by
one element per processed epoch. -/
theorem runEpochs_state (a : Args) (d : String) (M : ℕ → Metrics)
    (L : List ℕ) : ∀ st : CurveState,
    (runEpochs a d M L st).1 =
      { x_epoch := st.x_epoch ++ L
        train_loss_s := st.train_loss_s ++ L.map (fun e => (M e).1)
        train_prec_s := st.train_prec_s ++ L.map (fun e => (M e).2.1)
        og_test_loss_s := st.og_test_loss_s ++ L.map (fun e => (M e).2.2.1)
        og_test_prec_s := st.og_test_prec_s ++ L.map (fun e => (M e).2.2.2) } := by
  induction L with
  | nil => intro st; simp [runEpochs]
  | cons e rest ih =>
    intro st
    simp only [runEpochs, epochStep, ih, CurveState.push, List.map_cons]
    simp [List.append_assoc]

/-- The event trace of the epoch loop started at epoch `k + 1` on a state
holding `k` completed epochs: one block of six events per epoch, the
curve-render call seeing sequences of length equal to the epoch number. -/
theorem runEpochs_trace (a : Args) (d : String) (M : ℕ → Metrics) (m : ℕ) :
    ∀ (k : ℕ) (st : CurveState), st.x_epoch.length = k →
    (runEpochs a d M (List.range' (k + 1) m) st).2 =
      (List.range' (k + 1) m).flatMap (fun e =>
        [Event.printLine "Training...",
         Event.trainEpoch e a.log_interval true,
         Event.printLine "Testing...",
         Event.testPass "val" none,
         Event.appendCurve e,
         Event.drawCurve (d ++ "/learning_curve.jpg") e]) := by
  induction m with
  | zero => intro k st h; simp [runEpochs]
  | succ n ih =>
    intro k st h
    rw [List.range'_succ]
    simp only [runEpochs, epochStep, List.flatMap_cons, CurveState.push]
    have hlen : (st.x_epoch ++ [k + 1]).length = k + 1 := by simp [h]
    have := ih (k + 1) (st.push (k + 1) (M (k + 1))) (by simp [CurveState.push, h])
    simp only [CurveState.push] at this
    simp [this, hlen]

/-- Every event of the epoch loop is a progress print, a train call, a
validation test call, a curve append, or a curve render. -/
theorem runEpochs_mem (a : Args) (d : String) (M : ℕ → Metrics)
    (L : List ℕ) : ∀ (st : CurveState) (e : Event),
    e ∈ (runEpochs a d M L st).2 →
      (∃ s, e = Event.printLine s) ∨
      (∃ n li ws, e = Event.trainEpoch n li ws) ∨
      (∃ lo rp, e = Event.testPass lo rp) ∨
      (∃ n, e = Event.appendCurve n) ∨
      (∃ p n, e = Event.drawCurve p n) := by
  induction L with
  | nil => intro st e he; simp [runEpochs] at he
  | cons x rest ih =>
    intro st e he
    simp only [runEpochs, epochStep, List.mem_append, List.mem_cons,
      List.mem_singleton, List.not_mem_nil, or_false] at he
    rcases he with h | h
    · rcases h with h | h | h | h | h | h <;> subst h <;> simp
    · exact ih _ e h

/-- An extractor that ignores prints, train calls, test calls, appends and
renders sees nothing in the epoch loop. -/
theorem filterMap_runEpochs {α : Type} (f : Event → Option α)
    (hf1 : ∀ s, f (Event.printLine s) = none)
    (hf2 : ∀ n li ws, f (Event.trainEpoch n li ws) = none)
    (hf3 : ∀ lo rp, f (Event.testPass lo rp) = none)
    (hf4 : ∀ n, f (Event.appendCurve n) = none)
    (hf5 : ∀ p n, f (Event.drawCurve p n) = none)
    (a : Args) (d : String) (M : ℕ → Metrics) (L : List ℕ)
    (st : CurveState) :
    ((runEpochs a d M L st).2).filterMap f = [] := by
  rw [List.filterMap_eq_nil_iff]
  intro e he
  rcases runEpochs_mem a d M L st e he with
    ⟨s, rfl⟩ | ⟨n, li, ws, rfl⟩ | ⟨lo, rp, rfl⟩ | ⟨n, rfl⟩ | ⟨p, n, rfl⟩
  · exact hf1 s
  · exact hf2 n li ws
  · exact hf3 lo rp
  · exact hf4 n
  · exact hf5 p n

/-- The epoch numbers of the train calls in the loop are exactly the epochs
looped over, in order. -/
theorem trainNums_runEpochs (a : Args) (d : String) (M : ℕ → Metrics)
    (L : List ℕ) : ∀ st : CurveState,
    trainNums (runEpochs a d M L st).2 = L := by
  induction L with
  | nil => intro st; simp [runEpochs, trainNums]
  | cons x rest ih =>
    intro st
    simp [runEpochs, epochStep, trainNums, evTrainNum,
      List.filterMap_append] at ih ⊢
    exact ih _

/-- The curve appends of the loop are exactly the epochs looped over, in
order. -/
theorem appendNums_runEpochs (a : Args) (d : String) (M : ℕ → Metrics)
    (L : List ℕ) : ∀ st : CurveState,
    appendNums (runEpochs a d M L st).2 = L := by
  induction L with
  | nil => intro st; simp [runEpochs, appendNums]
  | cons x rest ih =>
    intro st
    simp [runEpochs, epochStep, appendNums, evAppendNum,
      List.filterMap_append] at ih ⊢
    exact ih _

/-- The curve-append extractor over the loop, in raw `filterMap` form. -/
theorem filterMap_evAppendNum_runEpochs (a : Args) (d : String)
    (M : ℕ → Metrics) (L : List ℕ) (st : CurveState) :
    List.filterMap evAppendNum (runEpochs a d M L st).2 = L :=
  appendNums_runEpochs a d M L st

/-- The loop constructs no trainer. -/
theorem trainerThres_runEpochs (a : Args) (d : String) (M : ℕ → Metrics)
    (L : List ℕ) (st : CurveState) :
    List.filterMap evTrainerThres (runEpochs a d M L st).2 = [] :=
  filterMap_runEpochs evTrainerThres (fun _ => rfl) (fun _ _ _ => rfl)
    (fun _ _ => rfl) (fun _ => rfl) (fun _ _ => rfl) a d M L st

/-- The loop constructs no scheduler. -/
theorem schedulerCtor_runEpochs (a : Args) (d : String) (M : ℕ → Metrics)
    (L : List ℕ) (st : CurveState) :
    List.filterMap evSchedulerCtor (runEpochs a d M L st).2 = [] :=
  filterMap_runEpochs evSchedulerCtor (fun _ => rfl) (fun _ _ _ => rfl)
    (fun _ _ => rfl) (fun _ => rfl) (fun _ _ => rfl) a d M L st

/-- The loop seeds no numpy generator. -/
theorem npSeed_runEpochs (a : Args) (d : String) (M : ℕ → Metrics)
    (L : List ℕ) (st : CurveState) :
    List.filterMap evNpSeed (runEpochs a d M L st).2 = [] :=
  filterMap_runEpochs evNpSeed (fun _ => rfl) (fun _ _ _ => rfl)
    (fun _ _ => rfl) (fun _ => rfl) (fun _ _ => rfl) a d M L st

/-- The loop seeds no torch generator. -/
theorem torchSeed_runEpochs (a : Args) (d : String) (M : ℕ → Metrics)
    (L : List ℕ) (st : CurveState) :
    List.filterMap evTorchSeed (runEpochs a d M L st).2 = [] :=
  filterMap_runEpochs evTorchSeed (fun _ => rfl) (fun _ _ _ => rfl)
    (fun _ _ => rfl) (fun _ => rfl) (fun _ _ => rfl) a d M L st

/-- The loop assigns no cudnn.deterministic flag. -/
theorem cudnnDet_runEpochs (a : Args) (d : String) (M : ℕ → Metrics)
    (L : List ℕ) (st : CurveState) :
    List.filterMap evCudnnDet (runEpochs a d M L st).2 = [] :=
  filterMap_runEpochs evCudnnDet (fun _ => rfl) (fun _ _ _ => rfl)
    (fun _ _ => rfl) (fun _ => rfl) (fun _ _ => rfl) a d M L st

/-- The loop assigns no cudnn.benchmark flag. -/
theorem cudnnBench_runEpochs (a : Args) (d : String) (M : ℕ → Metrics)
    (L : List ℕ) (st : CurveState) :
    List.filterMap evCudnnBench (runEpochs a d M L st).2 = [] :=
  filterMap_runEpochs evCudnnBench (fun _ => rfl) (fun _ _ _ => rfl)
    (fun _ _ => rfl) (fun _ => rfl) (fun _ _ => rfl) a d M L st

/-- The loop assigns no environment variables. -/
theorem envAssign_runEpochs (a : Args) (d : String) (M : ℕ → Metrics)
    (L : List ℕ) (st : CurveState) :
    List.filterMap evEnvAssign (runEpochs a d M L st).2 = [] :=
  filterMap_runEpochs evEnvAssign (fun _ => rfl) (fun _ _ _ => rfl)
    (fun _ _ => rfl) (fun _ => rfl) (fun _ _ => rfl) a d M L st

/-- Scanning past a head event that is not a curve append. -/
theorem appendThenDraw_cons_skip (e : Event) (l : List Event)
    (h : ∀ n, e ≠ Event.appendCurve n) :
    appendThenDraw (e :: l) = appendThenDraw l := by
  cases e
  case appendCurve n => exact absurd rfl (h n)
  all_goals rfl

/-- Scanning past a whole well-formed epoch block: the append is followed by
a render of sequences of the matching length. -/
theorem appendThenDraw_block (e li : ℕ) (p : String) (rest : List Event) :
    appendThenDraw
      ([Event.printLine "Training...", Event.trainEpoch e li true,
        Event.printLine "Testing...", Event.testPass "val" none,
        Event.appendCurve e, Event.drawCurve p e] ++ rest) =
      appendThenDraw rest := by
  simp [appendThenDraw]

/-- Scanning past any prefix containing no curve append. -/
theorem appendThenDraw_append (l rest : List Event)
    (h : ∀ n, Event.appendCurve n ∉ l) :
    appendThenDraw (l ++ rest) = appendThenDraw rest := by
  induction l with
  | nil => rfl
  | cons x xs ih =>
    have hx : ∀ n, x ≠ Event.appendCurve n := by
      intro n hn
      exact h n (by rw [hn]; exact List.mem_cons_self _ _)
    rw [List.cons_append, appendThenDraw_cons_skip x _ hx]
    exact ih (fun n hn => h n (List.mem_cons_of_mem x hn))

/-- Scanning past the concatenated epoch blocks of the loop. -/
theorem appendThenDraw_blocks (a : Args) (d : String) (L : List ℕ)
    (rest : List Event) :
    appendThenDraw
      ((L.flatMap (fun e =>
        [Event.printLine "Training...",
         Event.trainEpoch e a.log_interval true,
         Event.printLine "Testing...",
         Event.testPass "val" none,
         Event.appendCurve e,
         Event.drawCurve (d ++ "/learning_curve.jpg") e])) ++ rest) =
      appendThenDraw rest := by
  induction L with
  | nil => rfl
  | cons x xs ih =>
    rw [List.flatMap_cons, List.append_assoc, appendThenDraw_block]
    exact ih

/-- The loop writes only the learning-curve image, once per epoch. -/
theorem writesOf_runEpochs (a : Args) (d : String) (M : ℕ → Metrics)
    (L : List ℕ) : ∀ st : CurveState,
    writesOf (runEpochs a d M L st).2 =
      L.map (fun _ => d ++ "/learning_curve.jpg") := by
  induction L with
  | nil => intro st; simp [runEpochs, writesOf]
  | cons x rest ih =>
    intro st
    simp [runEpochs, epochStep, writesOf, Event.writes] at ih ⊢
    exact ih _

/-- The seed block performs no file writes. -/
theorem writesOf_seedEvents (a : Args) : writesOf (seedEvents a) = [] := by
  cases h : a.seed <;> simp [seedEvents, writesOf, Event.writes, h]

/-- The full trace of a fresh (non-resume) run on a supported dataset,
mirroring lines 3-135 in order. -/
theorem run_events_fresh (a : Args) (t : String) (roots : List String)
    (M : ℕ → Metrics) (hw : substrB "wildtrack" a.dataset = true)
    (hr : a.resume = none) :
    (run a t roots M).events =
      [Event.setEnv "OMP_NUM_THREADS" "1", Event.importLibs, Event.parseArgs]
      ++ seedEvents a
      ++ [Event.buildDatasets "~/Data/wildtrack_bbox" train_trans test_trans test_trans,
          Event.makedirs (logdirOf a t),
          Event.copyTree "./multiview_detector"
            (logdirOf a t ++ "/scripts/multiview_detector")]
      ++ (pyFiles roots).map
          (fun s => Event.copyFile s (logdirOf a t ++ "/scripts/" ++ s))
      ++ [Event.redirectStdout (logdirOf a t ++ "/log.txt"),
          Event.printLine "Settings:", Event.printVars a,
          Event.buildModel a.arch,
          Event.buildOptimizer a.lr a.momentum a.weight_decay,
          Event.buildScheduler 20 1,
          Event.buildTrainer a.cls_thres]
      ++ (runEpochs a (logdirOf a t) M (List.range' 1 a.epochs) CurveState.init).2
      ++ [Event.saveCheckpoint (logdirOf a t ++ "/MultiviewDetector.pth"),
          Event.printLine "Test loaded model...",
          Event.testPass "test" (some (logdirOf a t ++ "/" ++ a.test_type ++ ".txt")),
          Event.matlabEval (logdirOf a t ++ "/" ++ a.test_type ++ ".txt")] := by
  simp [run, hw, hr, setupEvents]

/-- The full trace of a resumed run on a supported dataset: no directory
setup, no stdout redirection, no epoch loop, no checkpoint save — a
checkpoint load and eval-mode switch instead, then the final test pass and
the evaluator call. -/
theorem run_events_resume (a : Args) (t : String) (roots : List String)
    (M : ℕ → Metrics) (r : String)
    (hw : substrB "wildtrack" a.dataset = true) (hr : a.resume = some r) :
    (run a t roots M).events =
      [Event.setEnv "OMP_NUM_THREADS" "1", Event.importLibs, Event.parseArgs]
      ++ seedEvents a
      ++ [Event.buildDatasets "~/Data/wildtrack_bbox" train_trans test_trans test_trans,
          Event.printLine "Settings:", Event.printVars a,
          Event.buildModel a.arch,
          Event.buildOptimizer a.lr a.momentum a.weight_decay,
          Event.buildScheduler 20 1,
          Event.buildTrainer a.cls_thres,
          Event.loadCheckpoint
            ("logs/" ++ a.dataset ++ "/" ++ r ++ "/MultiviewDetector.pth"),
          Event.modelEval,
          Event.printLine "Test loaded model...",
          Event.testPass "test" (some (logdirOf a t ++ "/" ++ a.test_type ++ ".txt")),
          Event.matlabEval (logdirOf a t ++ "/" ++ a.test_type ++ ".txt")] := by
  simp [run, hw, hr, setupEvents]

/-- Every event of the seed block is a generator seeding or a cudnn flag
assignment. -/
theorem mem_seedEvents (a : Args) (e : Event) (he : e ∈ seedEvents a) :
    (∃ s, e = Event.npSeed s) ∨ (∃ s, e = Event.torchManualSeed s) ∨
    (∃ b, e = Event.cudnnDeterministic b) ∨
    (∃ b, e = Event.cudnnBenchmark b) := by
  cases h : a.seed with
  | none =>
    simp [seedEvents, h] at he
    exact Or.inr (Or.inr (Or.inr ⟨true, he⟩))
  | some s =>
    simp [seedEvents, h] at he
    rcases he with rfl | rfl | rfl | rfl
    · exact Or.inl ⟨s, rfl⟩
    · exact Or.inr (Or.inl ⟨s, rfl⟩)
    · exact Or.inr (Or.inr (Or.inl ⟨true, rfl⟩))
    · exact Or.inr (Or.inr (Or.inr ⟨false, rfl⟩))

/-- The seed block assigns no environment variables. -/
theorem envAssign_seedEvents (a : Args) :
    List.filterMap evEnvAssign (seedEvents a) = [] := by
  cases h : a.seed <;> simp [seedEvents, h, evEnvAssign]

/-- The seed block constructs no trainer. -/
theorem trainerThres_seedEvents (a : Args) :
    List.filterMap evTrainerThres (seedEvents a) = [] := by
  cases h : a.seed <;> simp [seedEvents, h, evTrainerThres]

/-- The seed block constructs no scheduler. -/
theorem schedulerCtor_seedEvents (a : Args) :
    List.filterMap evSchedulerCtor (seedEvents a) = [] := by
  cases h : a.seed <;> simp [seedEvents, h, evSchedulerCtor]

/-- The seed block calls no training. -/
theorem trainNum_seedEvents (a : Args) :
    List.filterMap evTrainNum (seedEvents a) = [] := by
  cases h : a.seed <;> simp [seedEvents, h, evTrainNum]

/-- The seed block appends nothing onto the curve lists. -/
theorem appendNum_seedEvents (a : Args) :
    List.filterMap evAppendNum (seedEvents a) = [] := by
  cases h : a.seed <;> simp [seedEvents, h, evAppendNum]

/-- The trace and outcome of a run on an unsupported dataset name: the
dataset dispatch raises before any dataset, model or trainer work. -/
theorem run_events_unsupported (a : Args) (t : String) (roots : List String)
    (M : ℕ → Metrics) (hw : substrB "wildtrack" a.dataset = false) :
    run a t roots M =
      ⟨[Event.setEnv "OMP_NUM_THREADS" "1", Event.importLibs, Event.parseArgs]
        ++ seedEvents a,
       Outcome.error "Exception"⟩ := by
  simp [run, hw]

/-! ## Claims -/

/-- C10: every run's very first action is setting the environment variable
`OMP_NUM_THREADS` to `'1'`, at module import time: it precedes the
remaining library imports and argument parsing, it happens regardless of
every command-line flag, it is the only environment-variable assignment of
the run, and therefore the variable still holds `'1'` at run end. -/
theorem omp_threads_pinned (a : Args) (t : String) (roots : List String)
    (M : ℕ → Metrics) :
    (run a t roots M).events.take 3 =
      [Event.setEnv "OMP_NUM_THREADS" "1", Event.importLibs, Event.parseArgs]
    ∧ envAssigns (run a t roots M).events = [("OMP_NUM_THREADS", "1")]
    ∧ envValue "OMP_NUM_THREADS" (run a t roots M).events = some "1" := by
  have hassign :
      envAssigns (run a t roots M).events = [("OMP_NUM_THREADS", "1")] := by
    cases hw : substrB "wildtrack" a.dataset with
    | false =>
      rw [run_events_unsupported a t roots M hw]
      simp [envAssigns, List.filterMap_append, evEnvAssign,
        envAssign_seedEvents]
    | true =>
      cases hres : a.resume with
      | none =>
        rw [run_events_fresh a t roots M hw hres]
        simp [envAssigns, List.filterMap_append, List.filterMap_map,
          evEnvAssign, envAssign_seedEvents, envAssign_runEpochs,
          Function.comp]
      | some r =>
        rw [run_events_resume a t roots M r hw hres]
        simp [envAssigns, List.filterMap_append, evEnvAssign,
          envAssign_seedEvents]
  refine ⟨?_, hassign, ?_⟩
  · cases hw : substrB "wildtrack" a.dataset with
    | false => rw [run_events_unsupported a t roots M hw]; rfl
    | true =>
      cases hres : a.resume with
      | none => rw [run_events_fresh a t roots M hw hres]; rfl
      | some r => rw [run_events_resume a t roots M r hw hres]; rfl
  · simp [envValue, hassign]

/-- C7: the preprocessing pipeline of the training split equals the pipeline
of the validation and test splits — resize to 256x128, tensor conversion,
then channel-wise normalization by the fixed mean and standard-deviation
constants, with no further augmentation step — the two pipeline objects
compute the same function on images, and a run on the wildtrack dataset
hands exactly these pipelines to the three dataset splits. -/
theorem transforms_identical :
    train_trans = test_trans
    ∧ train_trans =
        [TStep.resize 256 128, TStep.toTensor,
         TStep.normalize (485/1000) (456/1000) (406/1000)
           (229/1000) (224/1000) (225/1000)]
    ∧ (∀ i : Img, applyPipeline train_trans i = applyPipeline test_trans i)
    ∧ (∀ (a : Args) (t : String) (roots : List String) (M : ℕ → Metrics),
        substrB "wildtrack" a.dataset = true →
        Event.buildDatasets "~/Data/wildtrack_bbox" train_trans test_trans
          test_trans ∈ (run a t roots M).events) := by
  refine ⟨rfl, rfl, fun i => rfl, ?_⟩
  intro a t roots M hw
  cases hres : a.resume with
  | none => rw [run_events_fresh a t roots M hw hres]; simp
  | some r => rw [run_events_resume a t roots M r hw hres]; simp

/-- Witness for the transform-identity theorem at the default
configuration. -/
theorem transforms_identical_witness :
    Event.buildDatasets "~/Data/wildtrack_bbox" train_trans test_trans
      test_trans ∈ (run defaultArgs "ts" [] constMetrics).events :=
  transforms_identical.2.2.2 defaultArgs "ts" [] constMetrics (by decide)

/-- C8: an unsupported dataset name is fatal at startup: argparse rejects
any name outside its choices list, and past parsing the dataset dispatch
ends the run with an exception on any name not containing `wildtrack`,
before any training (or test) call happens. -/
theorem unknown_dataset_fatal :
    (∀ a : Args, a.dataset ∉ datasetChoices → argparseAccepts a = false)
    ∧ (∀ (a : Args) (t : String) (roots : List String) (M : ℕ → Metrics),
        substrB "wildtrack" a.dataset = false →
        (run a t roots M).outcome = Outcome.error "Exception"
        ∧ trainNums (run a t roots M).events = []
        ∧ ∀ lo rp, Event.testPass lo rp ∉ (run a t roots M).events) := by
  constructor
  · intro a ha
    simp [argparseAccepts, List.contains, ha]
  · intro a t roots M hw
    rw [run_events_unsupported a t roots M hw]
    refine ⟨rfl, ?_, ?_⟩
    · simp [trainNums, List.filterMap_append, evTrainNum, trainNum_seedEvents]
    · intro lo rp hmem
      have hm2 : Event.testPass lo rp ∈ seedEvents a := by simpa using hmem
      rcases mem_seedEvents a _ hm2 with ⟨s, hs⟩ | ⟨s, hs⟩ | ⟨b, hs⟩ | ⟨b, hs⟩
        <;> exact Event.noConfusion hs

/-- Witness for the unsupported-dataset theorem at the concrete dataset name
`mnist`. -/
theorem unknown_dataset_fatal_witness :
    argparseAccepts { defaultArgs with dataset := "mnist" } = false
    ∧ (run { defaultArgs with dataset := "mnist" } "ts" [] constMetrics).outcome
        = Outcome.error "Exception" :=
  ⟨unknown_dataset_fatal.1 { defaultArgs with dataset := "mnist" } (by decide),
   (unknown_dataset_fatal.2 { defaultArgs with dataset := "mnist" } "ts" []
     constMetrics (by decide)).1⟩

/-- An extractor that vanishes on every event kind outside the seed block
sees exactly the seed block in any run. -/
theorem filterMap_run_eq_seed {α : Type} (f : Event → Option α)
    (h1 : ∀ n v, f (Event.setEnv n v) = none)
    (h2 : f Event.importLibs = none)
    (h3 : f Event.parseArgs = none)
    (h4 : ∀ p tr va te, f (Event.buildDatasets p tr va te) = none)
    (h5 : ∀ p, f (Event.makedirs p) = none)
    (h6 : ∀ s d, f (Event.copyTree s d) = none)
    (h7 : ∀ s d, f (Event.copyFile s d) = none)
    (h8 : ∀ p, f (Event.redirectStdout p) = none)
    (h9 : ∀ s, f (Event.printLine s) = none)
    (h10 : ∀ x, f (Event.printVars x) = none)
    (h11 : ∀ s, f (Event.buildModel s) = none)
    (h12 : ∀ x y z, f (Event.buildOptimizer x y z) = none)
    (h13 : ∀ x y, f (Event.buildScheduler x y) = none)
    (h14 : ∀ c, f (Event.buildTrainer c) = none)
    (h15 : ∀ n li ws, f (Event.trainEpoch n li ws) = none)
    (h16 : ∀ lo rp, f (Event.testPass lo rp) = none)
    (h17 : ∀ n, f (Event.appendCurve n) = none)
    (h18 : ∀ p n, f (Event.drawCurve p n) = none)
    (h19 : ∀ p, f (Event.saveCheckpoint p) = none)
    (h20 : ∀ p, f (Event.loadCheckpoint p) = none)
    (h21 : f Event.modelEval = none)
    (h22 : ∀ p, f (Event.matlabEval p) = none)
    (a : Args) (t : String) (roots : List String) (M : ℕ → Metrics) :
    ((run a t roots M).events).filterMap f = (seedEvents a).filterMap f := by
  cases hw : substrB "wildtrack" a.dataset with
  | false =>
    rw [run_events_unsupported a t roots M hw]
    simp [List.filterMap_append, h1, h2, h3]
  | true =>
    cases hres : a.resume with
    | none =>
      rw [run_events_fresh a t roots M hw hres]
      simp [List.filterMap_append, List.filterMap_map, Function.comp,
        h1, h2, h3, h4, h5, h6, h7, h8, h9, h10, h11, h12, h13, h14,
        h16, h19, h22, filterMap_runEpochs f h9 h15 h16 h17 h18]
    | some r =>
      rw [run_events_resume a t roots M r hw hres]
      simp [List.filterMap_append, h1, h2, h3, h4, h9, h10, h11, h12,
        h13, h14, h16, h20, h21, h22]

/-- The numpy seedings of a run are those of the seed block. -/
theorem npSeeds_run (a : Args) (t : String) (roots : List String)
    (M : ℕ → Metrics) :
    npSeeds (run a t roots M).events = List.filterMap evNpSeed (seedEvents a) :=
  filterMap_run_eq_seed evNpSeed (fun _ _ => rfl) rfl rfl
    (fun _ _ _ _ => rfl) (fun _ => rfl) (fun _ _ => rfl) (fun _ _ => rfl)
    (fun _ => rfl) (fun _ => rfl) (fun _ => rfl) (fun _ => rfl)
    (fun _ _ _ => rfl) (fun _ _ => rfl) (fun _ => rfl) (fun _ _ _ => rfl)
    (fun _ _ => rfl) (fun _ => rfl) (fun _ _ => rfl) (fun _ => rfl)
    (fun _ => rfl) rfl (fun _ => rfl) a t roots M

/-- The torch seedings of a run are those of the seed block. -/
theorem torchSeeds_run (a : Args) (t : String) (roots : List String)
    (M : ℕ → Metrics) :
    torchSeeds (run a t roots M).events =
      List.filterMap evTorchSeed (seedEvents a) :=
  filterMap_run_eq_seed evTorchSeed (fun _ _ => rfl) rfl rfl
    (fun _ _ _ _ => rfl) (fun _ => rfl) (fun _ _ => rfl) (fun _ _ => rfl)
    (fun _ => rfl) (fun _ => rfl) (fun _ => rfl) (fun _ => rfl)
    (fun _ _ _ => rfl) (fun _ _ => rfl) (fun _ => rfl) (fun _ _ _ => rfl)
    (fun _ _ => rfl) (fun _ => rfl) (fun _ _ => rfl) (fun _ => rfl)
    (fun _ => rfl) rfl (fun _ => rfl) a t roots M

/-- The `cudnn.deterministic` assignments of a run are those of the seed
block. -/
theorem cudnnDets_run (a : Args) (t : String) (roots : List String)
    (M : ℕ → Metrics) :
    cudnnDets (run a t roots M).events =
      List.filterMap evCudnnDet (seedEvents a) :=
  filterMap_run_eq_seed evCudnnDet (fun _ _ => rfl) rfl rfl
    (fun _ _ _ _ => rfl) (fun _ => rfl) (fun _ _ => rfl) (fun _ _ => rfl)
    (fun _ => rfl) (fun _ => rfl) (fun _ => rfl) (fun _ => rfl)
    (fun _ _ _ => rfl) (fun _ _ => rfl) (fun _ => rfl) (fun _ _ _ => rfl)
    (fun _ _ => rfl) (fun _ => rfl) (fun _ _ => rfl) (fun _ => rfl)
    (fun _ => rfl) rfl (fun _ => rfl) a t roots M

/-- The `cudnn.benchmark` assignments of a run are those of the seed
block. -/
theorem cudnnBenches_run (a : Args) (t : String) (roots : List String)
    (M : ℕ → Metrics) :
    cudnnBenches (run a t roots M).events =
      List.filterMap evCudnnBench (seedEvents a) :=
  filterMap_run_eq_seed evCudnnBench (fun _ _ => rfl) rfl rfl
    (fun _ _ _ _ => rfl) (fun _ => rfl) (fun _ _ => rfl) (fun _ _ => rfl)
    (fun _ => rfl) (fun _ => rfl) (fun _ => rfl) (fun _ => rfl)
    (fun _ _ _ => rfl) (fun _ _ => rfl) (fun _ => rfl) (fun _ _ _ => rfl)
    (fun _ _ => rfl) (fun _ => rfl) (fun _ _ => rfl) (fun _ => rfl)
    (fun _ => rfl) rfl (fun _ => rfl) a t roots M

/-- C6: when `--seed` is supplied the run seeds the numpy and torch random
number generators with it, switches cudnn to deterministic kernel selection
and disables cudnn benchmark mode; when no seed is supplied it performs no
generator seeding and instead enables cudnn benchmark mode (non-
deterministic performance-oriented kernel selection). -/
theorem seed_reproducibility (a : Args) (t : String) (roots : List String)
    (M : ℕ → Metrics) :
    (∀ s : Int, a.seed = some s →
      npSeeds (run a t roots M).events = [s]
      ∧ torchSeeds (run a t roots M).events = [s]
      ∧ cudnnDets (run a t roots M).events = [true]
      ∧ cudnnBenches (run a t roots M).events = [false])
    ∧ (a.seed = none →
      npSeeds (run a t roots M).events = []
      ∧ torchSeeds (run a t roots M).events = []
      ∧ cudnnDets (run a t roots M).events = []
      ∧ cudnnBenches (run a t roots M).events = [true]) := by
  constructor
  · intro s hseed
    refine ⟨?_, ?_, ?_, ?_⟩ <;>
      simp [npSeeds_run, torchSeeds_run, cudnnDets_run, cudnnBenches_run,
        seedEvents, hseed, evNpSeed, evTorchSeed, evCudnnDet, evCudnnBench]
  · intro hseed
    refine ⟨?_, ?_, ?_, ?_⟩ <;>
      simp [npSeeds_run, torchSeeds_run, cudnnDets_run, cudnnBenches_run,
        seedEvents, hseed, evNpSeed, evTorchSeed, evCudnnDet, evCudnnBench]

/-- Witness for the seed-handling theorem: a seeded run and an unseeded
run at concrete arguments. -/
theorem seed_reproducibility_witness :
    npSeeds (run { defaultArgs with seed := some 3 } "ts" [] constMetrics).events
      = [3]
    ∧ cudnnBenches (run defaultArgs "ts" [] constMetrics).events = [true] :=
  ⟨((seed_reproducibility { defaultArgs with seed := some 3 } "ts" []
      constMetrics).1 3 rfl).1,
   ((seed_reproducibility defaultArgs "ts" [] constMetrics).2 rfl).2.2.2⟩

/-- The loop trace of a fresh run, started from the empty curve state. -/
theorem runEpochs_trace_init (a : Args) (d : String) (M : ℕ → Metrics)
    (m : ℕ) :
    (runEpochs a d M (List.range' 1 m) CurveState.init).2 =
      (List.range' 1 m).flatMap (fun e =>
        [Event.printLine "Training...",
         Event.trainEpoch e a.log_interval true,
         Event.printLine "Testing...",
         Event.testPass "val" none,
         Event.appendCurve e,
         Event.drawCurve (d ++ "/learning_curve.jpg") e]) := by
  have h := runEpochs_trace a d M m 0 CurveState.init rfl
  simpa using h

/-- The spec-modelled per-epoch scheduler stepping in closed form: `B`
batches advance the step count by `B` and leave the cycle configuration
unchanged. -/
theorem trainerTrainSched_eq (B : ℕ) : ∀ s : Scheduler,
    trainerTrainSched B s = ⟨s.T0, s.Tmult, s.stepsTaken + B⟩ := by
  induction B with
  | zero => intro s; simp [trainerTrainSched]
  | succ n ih =>
    intro s
    simp only [trainerTrainSched, ih, Scheduler.step]
    simp [Scheduler.mk.injEq]
    omega

/-- C2: every run on the supported dataset constructs exactly one
learning-rate scheduler, cosine annealing with warm restarts with cycle
length `T_0 = 20` and restart multiplier `T_mult = 1`; the scheduler object
is among the arguments of every `trainer.train` call; and (trainer
modelled from the spec) an epoch over `B` batches steps the scheduler `B`
times — once per batch, not once per epoch. -/
theorem scheduler_cosine_per_batch (a : Args) (t : String)
    (roots : List String) (M : ℕ → Metrics)
    (hw : substrB "wildtrack" a.dataset = true) :
    schedulerCtors (run a t roots M).events = [(20, 1)]
    ∧ (∀ e li ws, Event.trainEpoch e li ws ∈ (run a t roots M).events →
        ws = true)
    ∧ schedulerInit.T0 = 20 ∧ schedulerInit.Tmult = 1
    ∧ (∀ (B : ℕ) (s : Scheduler),
        (trainerTrainSched B s).stepsTaken = s.stepsTaken + B
        ∧ (trainerTrainSched B s).T0 = s.T0
        ∧ (trainerTrainSched B s).Tmult = s.Tmult) := by
  refine ⟨?_, ?_, rfl, rfl, ?_⟩
  · cases hres : a.resume with
    | none =>
      rw [run_events_fresh a t roots M hw hres]
      simp [schedulerCtors, List.filterMap_append, List.filterMap_map,
        Function.comp, evSchedulerCtor, schedulerCtor_seedEvents,
        schedulerCtor_runEpochs]
    | some r =>
      rw [run_events_resume a t roots M r hw hres]
      simp [schedulerCtors, List.filterMap_append, evSchedulerCtor,
        schedulerCtor_seedEvents]
  · intro e li ws hmem
    cases hres : a.resume with
    | none =>
      rw [run_events_fresh a t roots M hw hres,
        runEpochs_trace_init a (logdirOf a t) M a.epochs] at hmem
      have hseed : Event.trainEpoch e li ws ∉ seedEvents a := by
        intro hm
        rcases mem_seedEvents a _ hm with ⟨s, hs⟩ | ⟨s, hs⟩ | ⟨b, hs⟩ | ⟨b, hs⟩
          <;> exact Event.noConfusion hs
      simp [List.mem_append, List.mem_flatMap, hseed] at hmem
      rcases hmem with ⟨x, _, h1, h2, h3⟩
      exact h3
    | some r =>
      rw [run_events_resume a t roots M r hw hres] at hmem
      have hseed : Event.trainEpoch e li ws ∉ seedEvents a := by
        intro hm
        rcases mem_seedEvents a _ hm with ⟨s, hs⟩ | ⟨s, hs⟩ | ⟨b, hs⟩ | ⟨b, hs⟩
          <;> exact Event.noConfusion hs
      simp [List.mem_append, hseed] at hmem
  · intro B s
    simp [trainerTrainSched_eq]

/-- Witness for the scheduler theorem at the default configuration. -/
theorem scheduler_cosine_per_batch_witness :
    schedulerCtors (run defaultArgs "ts" [] constMetrics).events = [(20, 1)]
    ∧ (trainerTrainSched 7 schedulerInit).stepsTaken = 0 + 7 :=
  ⟨(scheduler_cosine_per_batch defaultArgs "ts" [] constMetrics (by decide)).1,
   ((scheduler_cosine_per_batch defaultArgs "ts" [] constMetrics
      (by decide)).2.2.2.2 7 schedulerInit).1⟩

/-- A run on the supported dataset constructs exactly one trainer, and the
only run-configurable scalar it receives is `args.cls_thres` (line 106). -/
theorem trainerThresList_run (a : Args) (t : String) (roots : List String)
    (M : ℕ → Metrics) (hw : substrB "wildtrack" a.dataset = true) :
    trainerThresList (run a t roots M).events = [a.cls_thres] := by
  cases hres : a.resume with
  | none =>
    rw [run_events_fresh a t roots M hw hres]
    simp [trainerThresList, List.filterMap_append, List.filterMap_map,
      Function.comp, evTrainerThres, trainerThres_seedEvents,
      trainerThres_runEpochs]
  | some r =>
    rw [run_events_resume a t roots M r hw hres]
    simp [trainerThresList, List.filterMap_append, evTrainerThres,
      trainerThres_seedEvents]

/-- C1 as stated fails on the code: the `--soften` value parsed at startup
never reaches the emitted predictions.  At concrete inputs, two runs that
differ only in `soften` (1 versus 100) hand the trainer identical
configuration and emit identical predictions, while changing `--cls_thres`
does change the emitted predictions. -/
theorem soften_unused_counterexample :
    ({ defaultArgs with soften := 100 } : Args).soften ≠ defaultArgs.soften
    ∧ emittedPredictions { defaultArgs with soften := 100 } [1/2, 3/10]
        = emittedPredictions defaultArgs [1/2, 3/10]
    ∧ trainerThresList
        (run { defaultArgs with soften := 100 } "ts" [] constMetrics).events
        = trainerThresList (run defaultArgs "ts" [] constMetrics).events
    ∧ emittedPredictions { defaultArgs with cls_thres := 9/10 } [1/2, 3/10]
        ≠ emittedPredictions defaultArgs [1/2, 3/10] := by
  refine ⟨by norm_num [defaultArgs], rfl, ?_, ?_⟩
  · rw [trainerThresList_run { defaultArgs with soften := 100 } "ts" []
        constMetrics (by decide),
      trainerThresList_run defaultArgs "ts" [] constMetrics (by decide)]
  · intro h
    have h1 : (1/2 : ℚ) ∈ emittedPredictions defaultArgs [1/2, 3/10] := by
      norm_num [emittedPredictions, testEmitted, List.mem_filter, defaultArgs]
    rw [← h] at h1
    norm_num [emittedPredictions, testEmitted, List.mem_filter,
      defaultArgs] at h1

/-- C1 (amended): the predictions written to the results file in the final
test pass are subject to the classification threshold from `--cls_thres`;
the softmax-softening coefficient is internal to the trainer, and the
`--soften` flag parsed at startup is never passed to the trainer and does
not influence the emitted predictions.  Formally: changing only `soften`
changes neither the trainer configuration nor the emitted predictions, the
trainer of any run receives exactly `args.cls_thres`, and a score is
emitted iff it reaches that threshold. -/
theorem cls_thres_governs_predictions (a : Args) (s : ℚ) (scores : List ℚ)
    (t : String) (roots : List String) (M : ℕ → Metrics)
    (hw : substrB "wildtrack" a.dataset = true) :
    emittedPredictions { a with soften := s } scores
      = emittedPredictions a scores
    ∧ trainerThresList (run { a with soften := s } t roots M).events
        = [a.cls_thres]
    ∧ (∀ x : ℚ,
        x ∈ emittedPredictions a scores ↔ x ∈ scores ∧ a.cls_thres ≤ x) := by
  refine ⟨rfl, ?_, ?_⟩
  · exact trainerThresList_run { a with soften := s } t roots M hw
  · intro x
    simp [emittedPredictions, testEmitted, List.mem_filter]

/-- Witness for the amended C1 theorem at a concrete configuration. -/
theorem cls_thres_governs_predictions_witness :
    emittedPredictions { defaultArgs with soften := 5 } [1/2]
      = emittedPredictions defaultArgs [1/2]
    ∧ trainerThresList
        (run { defaultArgs with soften := 5 } "ts" [] constMetrics).events
        = [defaultArgs.cls_thres] :=
  ⟨(cls_thres_governs_predictions defaultArgs 5 [1/2] "ts" [] constMetrics
      (by decide)).1,
   (cls_thres_governs_predictions defaultArgs 5 [1/2] "ts" [] constMetrics
      (by decide)).2.1⟩

/-- The train-call extractor over the loop, in raw `filterMap` form. -/
theorem filterMap_evTrainNum_runEpochs (a : Args) (d : String)
    (M : ℕ → Metrics) (L : List ℕ) (st : CurveState) :
    List.filterMap evTrainNum (runEpochs a d M L st).2 = L :=
  trainNums_runEpochs a d M L st

/-- The file writes of the loop, in raw `flatMap` form. -/
theorem flatMap_writes_runEpochs (a : Args) (d : String) (M : ℕ → Metrics)
    (L : List ℕ) (st : CurveState) :
    ((runEpochs a d M L st).2).flatMap Event.writes =
      L.map (fun _ => d ++ "/learning_curve.jpg") :=
  writesOf_runEpochs a d M L st

/-- The file writes of the seed block, in raw `flatMap` form. -/
theorem flatMap_writes_seedEvents (a : Args) :
    (seedEvents a).flatMap Event.writes = [] :=
  writesOf_seedEvents a

/-- C3: control flow follows the spec's order.  Without `--resume` the run
trains epochs `1..epochs` in order, each iteration being train → validate →
curve append → curve render, then saves a single checkpoint after the loop;
with `--resume` the epoch loop is skipped entirely (no train call, no
checkpoint save) and a saved checkpoint is loaded into the freshly
constructed model instead; in both modes a final test pass with a results
path runs afterwards and the MATLAB evaluator is then invoked on exactly
the file that test pass wrote. -/
theorem main_control_flow (a : Args) (t : String) (roots : List String)
    (M : ℕ → Metrics) (hw : substrB "wildtrack" a.dataset = true) :
    (a.resume = none →
      trainNums (run a t roots M).events = List.range' 1 a.epochs
      ∧ (run a t roots M).events =
        [Event.setEnv "OMP_NUM_THREADS" "1", Event.importLibs,
         Event.parseArgs]
        ++ seedEvents a
        ++ [Event.buildDatasets "~/Data/wildtrack_bbox" train_trans
              test_trans test_trans,
            Event.makedirs (logdirOf a t),
            Event.copyTree "./multiview_detector"
              (logdirOf a t ++ "/scripts/multiview_detector")]
        ++ (pyFiles roots).map
            (fun s => Event.copyFile s (logdirOf a t ++ "/scripts/" ++ s))
        ++ [Event.redirectStdout (logdirOf a t ++ "/log.txt"),
            Event.printLine "Settings:", Event.printVars a,
            Event.buildModel a.arch,
            Event.buildOptimizer a.lr a.momentum a.weight_decay,
            Event.buildScheduler 20 1,
            Event.buildTrainer a.cls_thres]
        ++ (List.range' 1 a.epochs).flatMap (fun e =>
            [Event.printLine "Training...",
             Event.trainEpoch e a.log_interval true,
             Event.printLine "Testing...",
             Event.testPass "val" none,
             Event.appendCurve e,
             Event.drawCurve (logdirOf a t ++ "/learning_curve.jpg") e])
        ++ [Event.saveCheckpoint (logdirOf a t ++ "/MultiviewDetector.pth"),
            Event.printLine "Test loaded model...",
            Event.testPass "test"
              (some (logdirOf a t ++ "/" ++ a.test_type ++ ".txt")),
            Event.matlabEval (logdirOf a t ++ "/" ++ a.test_type ++ ".txt")])
    ∧ (∀ r, a.resume = some r →
      trainNums (run a t roots M).events = []
      ∧ (∀ p, Event.saveCheckpoint p ∉ (run a t roots M).events)
      ∧ (run a t roots M).events =
        [Event.setEnv "OMP_NUM_THREADS" "1", Event.importLibs,
         Event.parseArgs]
        ++ seedEvents a
        ++ [Event.buildDatasets "~/Data/wildtrack_bbox" train_trans
              test_trans test_trans,
            Event.printLine "Settings:", Event.printVars a,
            Event.buildModel a.arch,
            Event.buildOptimizer a.lr a.momentum a.weight_decay,
            Event.buildScheduler 20 1,
            Event.buildTrainer a.cls_thres,
            Event.loadCheckpoint
              ("logs/" ++ a.dataset ++ "/" ++ r ++ "/MultiviewDetector.pth"),
            Event.modelEval,
            Event.printLine "Test loaded model...",
            Event.testPass "test"
              (some (logdirOf a t ++ "/" ++ a.test_type ++ ".txt")),
            Event.matlabEval
              (logdirOf a t ++ "/" ++ a.test_type ++ ".txt")]) := by
  constructor
  · intro hres
    constructor
    · rw [run_events_fresh a t roots M hw hres]
      simp [trainNums, List.filterMap_append, List.filterMap_map,
        Function.comp, evTrainNum, trainNum_seedEvents,
        filterMap_evTrainNum_runEpochs]
    · rw [run_events_fresh a t roots M hw hres,
        runEpochs_trace_init a (logdirOf a t) M a.epochs]
  · intro r hres
    refine ⟨?_, ?_, ?_⟩
    · rw [run_events_resume a t roots M r hw hres]
      simp [trainNums, List.filterMap_append, evTrainNum,
        trainNum_seedEvents]
    · intro p hp
      rw [run_events_resume a t roots M r hw hres] at hp
      have hm : Event.saveCheckpoint p ∈ seedEvents a := by simpa using hp
      rcases mem_seedEvents a _ hm with ⟨s, hs⟩ | ⟨s, hs⟩ | ⟨b, hs⟩ | ⟨b, hs⟩
        <;> exact Event.noConfusion hs
    · rw [run_events_resume a t roots M r hw hres]

/-- Witness for the control-flow theorem: a fresh run and a resumed run at
concrete arguments. -/
theorem main_control_flow_witness :
    trainNums (run { defaultArgs with epochs := 2 } "ts" [] constMetrics).events
      = List.range' 1 2
    ∧ trainNums (run { defaultArgs with resume := some "prev" } "ts" []
        constMetrics).events = [] :=
  ⟨((main_control_flow { defaultArgs with epochs := 2 } "ts" [] constMetrics
      (by decide)).1 rfl).1,
   ((main_control_flow { defaultArgs with resume := some "prev" } "ts" []
      constMetrics (by decide)).2 "prev" rfl).1⟩

/-- The only file a resumed run writes is the results file of the final
test pass. -/
theorem writesOf_run_resume (a : Args) (t : String) (roots : List String)
    (M : ℕ → Metrics) (r : String)
    (hw : substrB "wildtrack" a.dataset = true) (hr : a.resume = some r) :
    writesOf (run a t roots M).events =
      [logdirOf a t ++ "/" ++ a.test_type ++ ".txt"] := by
  rw [run_events_resume a t roots M r hw hr]
  simp [writesOf, List.flatMap_append, flatMap_writes_seedEvents,
    Event.writes]

/-- C9: in resume mode the run performs no writes other than the results
text file: the checkpoint is loaded (read) and never saved, no run
directory is created, no source snapshot is copied, stdout is not
redirected into `log.txt`, and no learning-curve image is rendered. -/
theorem resume_writes_only_results (a : Args) (t : String)
    (roots : List String) (M : ℕ → Metrics) (r : String)
    (hw : substrB "wildtrack" a.dataset = true) (hr : a.resume = some r) :
    writesOf (run a t roots M).events =
      [logdirOf a t ++ "/" ++ a.test_type ++ ".txt"]
    ∧ Event.loadCheckpoint
        ("logs/" ++ a.dataset ++ "/" ++ r ++ "/MultiviewDetector.pth")
        ∈ (run a t roots M).events
    ∧ (∀ p, Event.saveCheckpoint p ∉ (run a t roots M).events)
    ∧ (∀ p, Event.makedirs p ∉ (run a t roots M).events)
    ∧ (∀ s d, Event.copyTree s d ∉ (run a t roots M).events)
    ∧ (∀ s d, Event.copyFile s d ∉ (run a t roots M).events)
    ∧ (∀ p, Event.redirectStdout p ∉ (run a t roots M).events)
    ∧ (∀ p n, Event.drawCurve p n ∉ (run a t roots M).events) := by
  refine ⟨writesOf_run_resume a t roots M r hw hr, ?_, ?_, ?_, ?_, ?_, ?_, ?_⟩
  · rw [run_events_resume a t roots M r hw hr]; simp
  · intro p hp
    rw [run_events_resume a t roots M r hw hr] at hp
    have hm : Event.saveCheckpoint p ∈ seedEvents a := by simpa using hp
    rcases mem_seedEvents a _ hm with ⟨s, hs⟩ | ⟨s, hs⟩ | ⟨b, hs⟩ | ⟨b, hs⟩
      <;> exact Event.noConfusion hs
  · intro p hp
    rw [run_events_resume a t roots M r hw hr] at hp
    have hm : Event.makedirs p ∈ seedEvents a := by simpa using hp
    rcases mem_seedEvents a _ hm with ⟨s, hs⟩ | ⟨s, hs⟩ | ⟨b, hs⟩ | ⟨b, hs⟩
      <;> exact Event.noConfusion hs
  · intro s d hp
    rw [run_events_resume a t roots M r hw hr] at hp
    have hm : Event.copyTree s d ∈ seedEvents a := by simpa using hp
    rcases mem_seedEvents a _ hm with ⟨x, hs⟩ | ⟨x, hs⟩ | ⟨b, hs⟩ | ⟨b, hs⟩
      <;> exact Event.noConfusion hs
  · intro s d hp
    rw [run_events_resume a t roots M r hw hr] at hp
    have hm : Event.copyFile s d ∈ seedEvents a := by simpa using hp
    rcases mem_seedEvents a _ hm with ⟨x, hs⟩ | ⟨x, hs⟩ | ⟨b, hs⟩ | ⟨b, hs⟩
      <;> exact Event.noConfusion hs
  · intro p hp
    rw [run_events_resume a t roots M r hw hr] at hp
    have hm : Event.redirectStdout p ∈ seedEvents a := by simpa using hp
    rcases mem_seedEvents a _ hm with ⟨s, hs⟩ | ⟨s, hs⟩ | ⟨b, hs⟩ | ⟨b, hs⟩
      <;> exact Event.noConfusion hs
  · intro p n hp
    rw [run_events_resume a t roots M r hw hr] at hp
    have hm : Event.drawCurve p n ∈ seedEvents a := by simpa using hp
    rcases mem_seedEvents a _ hm with ⟨s, hs⟩ | ⟨s, hs⟩ | ⟨b, hs⟩ | ⟨b, hs⟩
      <;> exact Event.noConfusion hs

/-- Witness for the resume frame theorem at a concrete resumed run. -/
theorem resume_writes_only_results_witness :
    writesOf (run { defaultArgs with resume := some "prev" } "ts" []
      constMetrics).events =
      [logdirOf { defaultArgs with resume := some "prev" } "ts"
        ++ "/" ++ ({ defaultArgs with resume := some "prev" } : Args).test_type
        ++ ".txt"] :=
  (resume_writes_only_results { defaultArgs with resume := some "prev" }
    "ts" [] constMetrics "prev" (by decide) rfl).1

/-- C4 as stated fails on the code: a fresh run with `--epochs 0` ends with
no learning-curve image in its run directory (`draw_curve` runs only inside
the epoch loop), even though the other artifacts — here the checkpoint —
are written. -/
theorem run_directory_counterexample :
    "logs/wildtrack_bbox/ts/learning_curve.jpg" ∉
      finalContents []
        (run { defaultArgs with epochs := 0 } "ts" [] constMetrics).events
    ∧ "logs/wildtrack_bbox/ts/MultiviewDetector.pth" ∈
      finalContents []
        (run { defaultArgs with epochs := 0 } "ts" [] constMetrics).events := by
  rw [finalContents, writesOf,
    run_events_fresh { defaultArgs with epochs := 0 } "ts" [] constMetrics
      (by decide) rfl]
  simp [List.flatMap_append, flatMap_writes_seedEvents,
    flatMap_writes_runEpochs, Event.writes, pyFiles, logdirOf, resumeFalsy]
  decide

/-- C4 (amended): the run directory is `logs/<dataset>/<timestamp>` for a
fresh run; at the end of a fresh run with at least one epoch it contains
the source-tree copy under `scripts/`, `log.txt`, `learning_curve.jpg`,
`MultiviewDetector.pth` and `<test_type>.txt` (with zero epochs the
learning-curve image is missing, which is the one correction).  For a
resumed run with a non-empty resume name the directory is
`logs/<dataset>/<resume-name>`, and at run end it holds exactly its prior
contents plus the results file `<test_type>.txt`. -/
theorem run_directory_contents (a : Args) (t : String) (roots : List String)
    (M : ℕ → Metrics) (hw : substrB "wildtrack" a.dataset = true) :
    (a.resume = none →
      logdirOf a t = "logs/" ++ a.dataset ++ "/" ++ t
      ∧ (1 ≤ a.epochs →
        [logdirOf a t ++ "/scripts/multiview_detector",
         logdirOf a t ++ "/log.txt",
         logdirOf a t ++ "/learning_curve.jpg",
         logdirOf a t ++ "/MultiviewDetector.pth",
         logdirOf a t ++ "/" ++ a.test_type ++ ".txt"] ⊆
          finalContents [] (run a t roots M).events))
    ∧ (∀ r, a.resume = some r → r ≠ "" →
      logdirOf a t = "logs/" ++ a.dataset ++ "/" ++ r
      ∧ ∀ initial : List String,
          finalContents initial (run a t roots M).events =
            initial ++ [logdirOf a t ++ "/" ++ a.test_type ++ ".txt"]) := by
  constructor
  · intro hres
    constructor
    · simp [logdirOf, resumeFalsy, hres]
    · intro heps
      rw [finalContents, writesOf,
        run_events_fresh a t roots M hw hres]
      simp only [List.flatMap_append, flatMap_writes_seedEvents,
        flatMap_writes_runEpochs, List.nil_append]
      obtain ⟨k, hk⟩ := Nat.exists_eq_add_of_le heps
      intro x hx
      simp only [List.mem_cons, List.not_mem_nil, or_false] at hx
      rcases hx with rfl | rfl | rfl | rfl | rfl
      · simp [Event.writes, List.flatMap_cons]
      · simp [Event.writes, List.flatMap_cons]
      · simp only [List.mem_append]
        refine Or.inl (Or.inr ?_)
        rw [hk, Nat.add_comm, List.range'_succ]
        simp
      · simp [Event.writes, List.flatMap_cons]
      · simp [Event.writes, List.flatMap_cons]
  · intro r hres hne
    have hfalsy : resumeFalsy a.resume = false := by
      rw [hres]
      simp only [resumeFalsy]
      rw [Bool.eq_false_iff]
      intro hemp
      exact hne ((String.isEmpty_iff r).mp hemp)
    have hfalsy2 : resumeFalsy (some r) = false := hres ▸ hfalsy
    constructor
    · simp [logdirOf, hres, hfalsy2]
    · intro initial
      rw [finalContents, writesOf_run_resume a t roots M r hw hres]

/-- Witness for the amended run-directory theorem: a fresh run that renders
the curve and a resumed run whose final contents are its prior contents
plus the results file. -/
theorem run_directory_contents_witness :
    "logs/wildtrack_bbox/ts/learning_curve.jpg" ∈
      finalContents [] (run defaultArgs "ts" [] constMetrics).events
    ∧ finalContents ["logs/wildtrack_bbox/prev/MultiviewDetector.pth"]
        (run { defaultArgs with resume := some "prev" } "ts" []
          constMetrics).events
      = ["logs/wildtrack_bbox/prev/MultiviewDetector.pth",
         "logs/wildtrack_bbox/prev/test.txt"] := by
  constructor
  · exact ((run_directory_contents defaultArgs "ts" [] constMetrics
      (by decide)).1 rfl).2 (by decide) (by decide)
  · rw [((run_directory_contents { defaultArgs with resume := some "prev" }
      "ts" [] constMetrics (by decide)).2 "prev" rfl (by decide)).2
      ["logs/wildtrack_bbox/prev/MultiviewDetector.pth"]]
    decide

/-- C5 as stated fails on the code: the training-curve state holds five
parallel sequences — the epoch-index list plus the four metric lists — not
four.  After one epoch of a concrete run the state is five singleton
lists. -/
theorem curve_four_sequences_counterexample :
    (CurveState.seqs
      (curveOf { defaultArgs with epochs := 1 } "ts" constMetrics)).length ≠ 4
    ∧ curveOf { defaultArgs with epochs := 1 } "ts" constMetrics =
        { x_epoch := [1], train_loss_s := [0], train_prec_s := [0],
          og_test_loss_s := [0], og_test_prec_s := [0] } := by
  constructor
  · decide
  · rfl

/-- C5 (amended): during the training loop the curve state consists of five
(not four) parallel ordered sequences — epoch index, train loss, train
accuracy, test loss, test accuracy.  Each completed epoch appends exactly
one element to each of the five, so they always have equal length, equal to
the number of completed epochs: after the loop the epoch list is exactly
`[1..epochs]` and every metric list has length `epochs`; for any loop
segment each list grows by exactly the number of epochs processed; one
curve point is appended per epoch of the run; and the learning-curve image
is re-rendered immediately after each append. -/
theorem curve_state_five_parallel (a : Args) (t : String)
    (roots : List String) (M : ℕ → Metrics)
    (hw : substrB "wildtrack" a.dataset = true) (hres : a.resume = none) :
    (CurveState.seqs (curveOf a t M)).length = 5
    ∧ (curveOf a t M).x_epoch = List.range' 1 a.epochs
    ∧ ((curveOf a t M).train_loss_s.length = a.epochs
       ∧ (curveOf a t M).train_prec_s.length = a.epochs
       ∧ (curveOf a t M).og_test_loss_s.length = a.epochs
       ∧ (curveOf a t M).og_test_prec_s.length = a.epochs)
    ∧ (∀ (L : List ℕ) (st : CurveState),
        ((runEpochs a (logdirOf a t) M L st).1).x_epoch.length
            = st.x_epoch.length + L.length
        ∧ ((runEpochs a (logdirOf a t) M L st).1).train_loss_s.length
            = st.train_loss_s.length + L.length
        ∧ ((runEpochs a (logdirOf a t) M L st).1).train_prec_s.length
            = st.train_prec_s.length + L.length
        ∧ ((runEpochs a (logdirOf a t) M L st).1).og_test_loss_s.length
            = st.og_test_loss_s.length + L.length
        ∧ ((runEpochs a (logdirOf a t) M L st).1).og_test_prec_s.length
            = st.og_test_prec_s.length + L.length)
    ∧ appendNums (run a t roots M).events = List.range' 1 a.epochs
    ∧ appendThenDraw (run a t roots M).events = true := by
  refine ⟨rfl, ?_, ?_, ?_, ?_, ?_⟩
  · simp [curveOf, runEpochs_state, CurveState.init]
  · refine ⟨?_, ?_, ?_, ?_⟩ <;>
      simp [curveOf, runEpochs_state, CurveState.init]
  · intro L st
    refine ⟨?_, ?_, ?_, ?_, ?_⟩ <;> simp [runEpochs_state]
  · rw [run_events_fresh a t roots M hw hres]
    simp [appendNums, List.filterMap_append, List.filterMap_map,
      Function.comp, evAppendNum, appendNum_seedEvents,
      filterMap_evAppendNum_runEpochs]
  · rw [run_events_fresh a t roots M hw hres,
      runEpochs_trace_init a (logdirOf a t) M a.epochs]
    simp only [List.append_assoc]
    rw [appendThenDraw_append _ _ (by intro n hn; simp at hn)]
    rw [appendThenDraw_append _ _ (by
      intro n hn
      rcases mem_seedEvents a _ hn with ⟨s, hs⟩ | ⟨s, hs⟩ | ⟨b, hs⟩ | ⟨b, hs⟩
        <;> exact Event.noConfusion hs)]
    rw [appendThenDraw_append _ _ (by intro n hn; simp at hn)]
    rw [appendThenDraw_append _ _ (by intro n hn; simp at hn)]
    rw [appendThenDraw_append _ _ (by intro n hn; simp at hn)]
    rw [appendThenDraw_blocks]
    rfl

/-- Witness for the amended curve-state theorem at the default
configuration. -/
theorem curve_state_five_parallel_witness :
    (curveOf defaultArgs "ts" constMetrics).x_epoch = List.range' 1 60
    ∧ appendThenDraw (run defaultArgs "ts" [] constMetrics).events = true :=
  ⟨(curve_state_five_parallel defaultArgs "ts" [] constMetrics
      (by decide) rfl).2.1,
   (curve_state_five_parallel defaultArgs "ts" [] constMetrics
      (by decide) rfl).2.2.2.2.2⟩

end MainBbox
